import Mathlib

/-!
Shallow embedding of `src/bot_address_book_9.py`, an interactive contact
manager.  Python exceptions are modelled by `Except PyErr`; Python `dict`
is modelled by an association list with insert-or-overwrite semantics;
strings are Lean `String` (Unicode code points, like Python `str`).
-/

/-- The three exception classes caught by the `input_error` decorator
(`KeyError`, `ValueError`, `IndexError`). -/
inductive PyErr where
  | keyError
  | valueError
  | indexError
deriving DecidableEq, Repr

/-- The fixed message each caught exception is translated to by
`input_error` (lines 12-21 of the source). -/
def errMsg : PyErr → String
  | .keyError => "Contact not found."
  | .valueError => "Invalid input format."
  | .indexError => "Not enough arguments."

/-- Model of Python's whitespace classification used by `str.strip()`:
the ASCII whitespace characters together with the further Unicode
whitespace code points recognised by CPython's `str.isspace`. -/
def pyIsSpaceChar (c : Char) : Bool :=
  c.val == 0x20 || (0x9 ≤ c.val && c.val ≤ 0xD) ||
  (0x1C ≤ c.val && c.val ≤ 0x1F) || c.val == 0x85 || c.val == 0xA0 ||
  c.val == 0x1680 || (0x2000 ≤ c.val && c.val ≤ 0x200A) ||
  c.val == 0x2028 || c.val == 0x2029 || c.val == 0x202F ||
  c.val == 0x205F || c.val == 0x3000

/-- Model of Python's `str.strip()` with no argument: remove leading and
trailing whitespace characters. -/
def pyStrip (s : String) : String :=
  String.mk (((s.data.dropWhile pyIsSpaceChar).reverse.dropWhile pyIsSpaceChar).reverse)

/-- Model of Python's `str.isdigit` on a single character.  CPython's
`isdigit` is true for every Unicode character of numeric type Digit or
Decimal, which is strictly larger than the ASCII digits; this model
covers the ASCII digits plus a representative selection of the further
code points CPython accepts (superscript digits, Arabic-Indic, extended
Arabic-Indic and Devanagari digits).  Every character listed here really
satisfies `str.isdigit` in CPython, so acceptance facts proved from this
model also hold of the source. -/
def pyIsDigitChar (c : Char) : Bool :=
  (0x30 ≤ c.val && c.val ≤ 0x39) ||
  c.val == 0xB2 || c.val == 0xB3 || c.val == 0xB9 ||
  (0x660 ≤ c.val && c.val ≤ 0x669) ||
  (0x6F0 ≤ c.val && c.val ≤ 0x6F9) ||
  (0x966 ≤ c.val && c.val ≤ 0x96F)

/-- Model of Python's `str.isdigit` on a whole string: non-empty and
every character a digit. -/
def pyIsdigitStr (s : String) : Bool :=
  s.length != 0 && s.data.all pyIsDigitChar

/-- `Name` (source lines 35-49): wraps the raw string unchanged. -/
structure Name where
  value : String
deriving DecidableEq, Repr

/-- `Phone` (source lines 52-66): wraps the raw string unchanged. -/
structure Phone where
  value : String
deriving DecidableEq, Repr

/-- `Name.__init__`: raises `ValueError` when the stripped name is empty,
otherwise stores the (unstripped) string. -/
def makeName (name : String) : Except PyErr Name :=
  if pyStrip name = "" then .error .valueError else .ok ⟨name⟩

/-- `Phone.__init__`: raises `ValueError` unless `number.isdigit()` holds
and the length is exactly 10, otherwise stores the string. -/
def makePhone (number : String) : Except PyErr Phone :=
  if !(pyIsdigitStr number) || number.length ≠ 10 then .error .valueError
  else .ok ⟨number⟩

/-- `Record` (source lines 69-98): one validated name plus an ordered
list of validated phones. -/
structure Record where
  name : Name
  phones : List Phone
deriving DecidableEq, Repr

/-- Model of `"; ".join(...)` / `"\n".join(...)`: Python `str.join`. -/
def pyJoin (sep : String) : List String → String
  | [] => ""
  | [x] => x
  | x :: xs => x ++ sep ++ pyJoin sep xs

/-- `Record.__str__` (source lines 96-98). -/
def Record.str (r : Record) : String :=
  "Contact name: " ++ r.name.value ++ ", phones: " ++
    pyJoin "; " (r.phones.map Phone.value)

/-- `AddressBook` (source lines 101-140): `self.records` is a Python
`dict` keyed by the name string, modelled as an association list in
insertion order with unique-key insert-or-overwrite. -/
structure AddressBook where
  records : List (String × Record)
deriving DecidableEq, Repr

/-- `dict` assignment `d[k] = v`: overwrite in place when the key is
present, append otherwise. -/
def insertKey : List (String × Record) → String → Record → List (String × Record)
  | [], k, v => [(k, v)]
  | (k', v') :: rest, k, v =>
      if k' = k then (k, v) :: rest else (k', v') :: insertKey rest k v

/-- `AddressBook.add_record` (source lines 112-118):
`self.records[record.name.value] = record`. -/
def AddressBook.add_record (book : AddressBook) (record : Record) : AddressBook :=
  ⟨insertKey book.records record.name.value record⟩

/-- `dict.get(k, None)`: first (and, for a real dict, only) entry with
the key. -/
def lookupKey : List (String × Record) → String → Option Record
  | [], _ => none
  | (k', v') :: rest, k => if k' = k then some v' else lookupKey rest k

/-- `AddressBook.find` (source lines 120-127): `self.records.get(name, None)`. -/
def AddressBook.find (book : AddressBook) (name : String) : Option Record :=
  lookupKey book.records name

/-- `del d[k]`: remove the entry with the key (a dict holds at most one). -/
def removeKey : List (String × Record) → String → List (String × Record)
  | [], _ => []
  | (k', v') :: rest, k =>
      if k' = k then rest else (k', v') :: removeKey rest k

/-- `AddressBook.delete` (source lines 129-136):
`if name in self.records: del self.records[name]`. -/
def AddressBook.delete (book : AddressBook) (name : String) : AddressBook :=
  if (book.find name).isSome then ⟨removeKey book.records name⟩ else book

/-- `AddressBook.__str__` (source lines 138-140):
`"\n".join(str(record) for record in self.records.values())`. -/
def AddressBook.str (book : AddressBook) : String :=
  pyJoin (String.mk [Char.ofNat 10]) (book.records.map (fun kv => Record.str kv.2))

/-- Body of `add_contact` (source lines 144-156) before the `input_error`
decorator is applied.  `name, phone = args` raises `ValueError` when
`args` does not have exactly two elements (Python unpacking); then
`Record(name)` runs `Name.__init__`, `record.add_phone(phone)` runs
`Phone.__init__` and appends, and only then is the record stored. -/
def add_contact_core (args : List String) (address_book : AddressBook) :
    Except PyErr (String × AddressBook) :=
  match args with
  | [name, phone] =>
      makeName name >>= fun nm =>
      makePhone phone >>= fun ph =>
      .ok ("Contact " ++ name ++ " added.",
           address_book.add_record ⟨nm, [ph]⟩)
  | _ => .error .valueError

/-- `add_contact` with the `input_error` decorator applied: exceptions
become fixed messages and the store is returned as the caller left it. -/
def add_contact (args : List String) (address_book : AddressBook) :
    String × AddressBook :=
  match add_contact_core args address_book with
  | .ok r => r
  | .error e => (errMsg e, address_book)

/-- Body of `get_phone` (source lines 160-172) before the decorator:
`args[0]` raises `IndexError` on an empty list; a missing record yields
the string "Contact not found." by an ordinary `return`, not an
exception. -/
def get_phone_core (args : List String) (address_book : AddressBook) :
    Except PyErr String :=
  match args with
  | [] => .error .indexError
  | name :: _ =>
      match address_book.find name with
      | some record => .ok (Record.str record)
      | none => .ok "Contact not found."

/-- `get_phone` with the `input_error` decorator applied. -/
def get_phone (args : List String) (address_book : AddressBook) : String :=
  match get_phone_core args address_book with
  | .ok s => s
  | .error e => errMsg e

/-- Model of Python's `str.lower` (ASCII case folding; the inputs
considered in this development are ASCII, where CPython agrees). -/
def pyLower (s : String) : String :=
  String.mk (s.data.map Char.toLower)

/-- Model of Python's `str.split(sep)` with a one-character separator:
fields between separator occurrences, keeping empty fields (so
`"phone".split(" ") = ["phone"]` and `"".split(" ") = [""]`). -/
def pySplitChars (sep : Char) : List Char → List (List Char)
  | [] => [[]]
  | c :: rest =>
      match pySplitChars sep rest with
      | [] => if c = sep then [[], []] else [[c]]
      | h :: t => if c = sep then [] :: h :: t else (c :: h) :: t

/-- `str.split(sep)` lifted to strings. -/
def pySplit (sep : Char) (s : String) : List String :=
  (pySplitChars sep s.data).map String.mk

/-- Model of Python's `str.startswith`. -/
def pyStartsWith (s pre : String) : Bool :=
  pre.data.isPrefixOf s.data

/-- One iteration of the `while` loop of `main` (source lines 182-217):
given the raw input line and the current book, return the list of
printed lines, the updated book, and whether the loop continues. -/
def processCommand (line : String) (book : AddressBook) :
    List String × AddressBook × Bool :=
  let com := pyLower line
  if com = "hello" then (["How can I help you?"], book, true)
  else if pyStartsWith com "add" then
    let parts := pySplit ' ' com
    if parts.length < 3 then
      (["Invalid format. Use: add [name] [number]"], book, true)
    else
      let name := parts.getD 1 ""
      let number := parts.getD 2 ""
      let r := add_contact [name, number] book
      ([r.1], r.2, true)
  else if pyStartsWith com "phone" then
    let parts := pySplit ' ' com
    if parts.length < 2 then
      (["Invalid format. Use: phone [name]"], book, true)
    else
      let name := parts.getD 1 ""
      ([get_phone [name] book], book, true)
  else if com = "all" then
    if book.records ≠ [] then
      (["Saved contacts:", book.str], book, true)
    else
      (["No contacts saved yet."], book, true)
  else if com = "exit" then (["Good bye!"], book, false)
  else (["Invalid command. Try again.e"], book, true)

/-- The `main` loop run on a finite script of input lines: concatenated
printed lines (the loop stops after `exit`). -/
def runLoop : List String → AddressBook → List String
  | [], _ => []
  | line :: rest, book =>
      let step := processCommand line book
      if step.2.2 then step.1 ++ runLoop rest step.2.1 else step.1

/-! ### Helper lemmas -/

/-- The entry just written under a key is the one `dict.get` returns. -/
theorem lookupKey_insertKey_self (l : List (String × Record)) (k : String) (v : Record) :
    lookupKey (insertKey l k v) k = some v := by
  induction l with
  | nil => simp [insertKey, lookupKey]
  | cons hd tl ih =>
      obtain ⟨k', v'⟩ := hd
      by_cases h : k' = k
      · simp [insertKey, lookupKey, h]
      · simp [insertKey, lookupKey, h, ih]

/-- `Name.__init__` only ever raises `ValueError`. -/
theorem makeName_error {s : String} {e : PyErr} (h : makeName s = .error e) :
    e = .valueError := by
  unfold makeName at h
  split at h
  · exact (Except.error.injEq _ _).mp h.symm
  · exact absurd h (by simp)

/-- `Phone.__init__` only ever raises `ValueError`. -/
theorem makePhone_error {s : String} {e : PyErr} (h : makePhone s = .error e) :
    e = .valueError := by
  unfold makePhone at h
  split at h
  · exact (Except.error.injEq _ _).mp h.symm
  · exact absurd h (by simp)

/-- A successful `Name` construction stores the raw string unchanged. -/
theorem makeName_isOk_eq {s : String} (h : (makeName s).isOk = true) :
    makeName s = .ok ⟨s⟩ := by
  by_cases hc : pyStrip s = ""
  · unfold makeName at h
    rw [if_pos hc] at h
    simp [Except.isOk, Except.toBool] at h
  · unfold makeName
    rw [if_neg hc]

/-- A successful `Phone` construction stores the raw string unchanged. -/
theorem makePhone_isOk_eq {s : String} (h : (makePhone s).isOk = true) :
    makePhone s = .ok ⟨s⟩ := by
  by_cases hc : (!(pyIsdigitStr s) || decide (s.length ≠ 10)) = true
  · unfold makePhone at h
    rw [if_pos hc] at h
    simp [Except.isOk, Except.toBool] at h
  · unfold makePhone
    rw [if_neg hc]

/-- When both fields validate, `add_contact` returns the confirmation
message and stores a one-phone record under the raw name. -/
theorem add_contact_success {n p : String} (book : AddressBook)
    (hn : (makeName n).isOk = true) (hp : (makePhone p).isOk = true) :
    add_contact [n, p] book =
      ("Contact " ++ n ++ " added.", book.add_record ⟨⟨n⟩, [⟨p⟩]⟩) := by
  have hcc : add_contact_core [n, p] book =
      (makeName n >>= fun nm =>
       makePhone p >>= fun ph =>
       .ok ("Contact " ++ n ++ " added.", book.add_record ⟨nm, [ph]⟩)) := rfl
  unfold add_contact
  rw [hcc, makeName_isOk_eq hn, makePhone_isOk_eq hp]
  rfl

/-- A key that occurs nowhere in the list is not found. -/
theorem lookupKey_eq_none {l : List (String × Record)} {k : String}
    (h : k ∉ l.map Prod.fst) : lookupKey l k = none := by
  induction l with
  | nil => rfl
  | cons hd tl ih =>
      obtain ⟨k', v'⟩ := hd
      simp only [List.map_cons, List.mem_cons] at h
      push_neg at h
      have hne : ¬ k' = k := fun hh => h.1 hh.symm
      simp [lookupKey, hne, ih h.2]

/-- After removing a key from a duplicate-free association list, the key
is no longer found. -/
theorem lookupKey_removeKey_self {l : List (String × Record)} {k : String}
    (h : (l.map Prod.fst).Nodup) : lookupKey (removeKey l k) k = none := by
  induction l with
  | nil => rfl
  | cons hd tl ih =>
      obtain ⟨k', v'⟩ := hd
      simp only [List.map_cons, List.nodup_cons] at h
      by_cases hk : k' = k
      · subst hk
        simp [removeKey, lookupKey_eq_none h.1]
      · simp [removeKey, lookupKey, hk, ih h.2]

/-- Removing one key leaves lookups of every other key unchanged. -/
theorem lookupKey_removeKey_ne (l : List (String × Record)) {k k2 : String}
    (h : k2 ≠ k) : lookupKey (removeKey l k) k2 = lookupKey l k2 := by
  induction l with
  | nil => rfl
  | cons hd tl ih =>
      obtain ⟨k', v'⟩ := hd
      by_cases hk : k' = k
      · subst hk
        have hne : ¬ k' = k2 := fun hh => h hh.symm
        simp [removeKey, lookupKey, hne]
      · by_cases hk2 : k' = k2
        · subst hk2
          simp [removeKey, lookupKey, hk]
        · simp [removeKey, lookupKey, hk, hk2, ih]

/-- Dropping a true prefix does not change whether the predicate holds of
every element. -/
theorem dropWhile_all_iff (p : Char → Bool) (l : List Char) :
    ((l.dropWhile p).all p = true) ↔ (l.all p = true) := by
  induction l with
  | nil => simp
  | cons a t ih =>
      by_cases ha : p a
      · simpa [List.dropWhile_cons, ha] using ih
      · simp [List.dropWhile_cons, ha]

/-- The stripped string is empty exactly when every character of the
original is whitespace. -/
theorem pyStrip_eq_empty_iff (s : String) :
    (pyStrip s = "") ↔ (s.data.all pyIsSpaceChar = true) := by
  unfold pyStrip
  have hmk : ∀ l : List Char, (String.mk l = "") ↔ l = [] := by
    intro l
    constructor
    · intro h
      have h2 := congrArg String.data h
      simpa using h2
    · intro h
      rw [h]
  rw [hmk]
  rw [List.reverse_eq_nil_iff, List.dropWhile_eq_nil_iff]
  constructor
  · intro h
    rw [List.all_eq_true]
    have h2 : ∀ x ∈ s.data.dropWhile pyIsSpaceChar, pyIsSpaceChar x := by
      intro x hx
      exact h x (by simpa using hx)
    have h3 : (s.data.dropWhile pyIsSpaceChar).all pyIsSpaceChar = true := by
      rw [List.all_eq_true]; exact h2
    have h4 := (dropWhile_all_iff pyIsSpaceChar s.data).mp h3
    exact fun x hx => (List.all_eq_true.mp h4) x hx
  · intro h x hx
    rw [List.mem_reverse] at hx
    have h4 := (dropWhile_all_iff pyIsSpaceChar s.data).mpr h
    exact List.all_eq_true.mp h4 x hx

/-! ### Claim theorems -/

/-- C1 counterexample: `add_contact` called with one argument returns
"Invalid input format.", not "Not enough arguments." — `name, phone =
args` raises `ValueError`, not `IndexError`, on a short list. -/
theorem c1_short_args_message_cex :
    (add_contact ["x"] ⟨[]⟩).1 = "Invalid input format." ∧
    (add_contact ["x"] ⟨[]⟩).1 ≠ "Not enough arguments." := by
  constructor
  · rfl
  · decide

/-- C1 (amended): for every argument list with fewer than 2 elements and
every store, `add_contact` returns "Invalid input format." and leaves
the store unchanged. -/
theorem c1_short_args_message (args : List String) (book : AddressBook)
    (h : args.length < 2) :
    add_contact args book = ("Invalid input format.", book) := by
  match args with
  | [] => rfl
  | [a] => rfl
  | a :: b :: t =>
      simp only [List.length_cons] at h
      omega

/-- Witness for C1's amended theorem at the one-element list `["x"]`. -/
theorem c1_short_args_message_w :
    (["x"] : List String).length < 2 ∧
    add_contact ["x"] ⟨[]⟩ = ("Invalid input format.", ⟨[]⟩) :=
  ⟨by decide, c1_short_args_message ["x"] ⟨[]⟩ (by decide)⟩

/-- C3: `Name` construction fails (with `ValueError`, the `InvalidInput`
case) exactly when the stripped string is empty; `""` and `"   "` fail,
`"Ann"` succeeds storing `"Ann"`. -/
theorem c3_makeName_spec :
    (∀ s : String, (makeName s).isOk = true ↔ pyStrip s ≠ "") ∧
    makeName "" = .error .valueError ∧
    makeName "   " = .error .valueError ∧
    makeName "Ann" = .ok ⟨"Ann"⟩ := by
  refine ⟨fun s => ?_, rfl, rfl, rfl⟩
  unfold makeName
  by_cases hc : pyStrip s = ""
  · rw [if_pos hc]
    simp [Except.isOk, Except.toBool, hc]
  · rw [if_neg hc]
    simp [Except.isOk, Except.toBool, hc]

/-- Witness for C3 at the concrete input `"Ann"`. -/
theorem c3_makeName_spec_w : (makeName "Ann").isOk = true :=
  (c3_makeName_spec.1 "Ann").mpr (by decide)

/-- C5: looking up a name absent from the store returns the fixed
string "Contact not found." by a plain `return` (the `Except` value is
`ok`, so no exception reaches the caller). -/
theorem c5_get_phone_missing (name : String) (book : AddressBook)
    (h : book.find name = none) :
    get_phone_core [name] book = .ok "Contact not found." ∧
    get_phone [name] book = "Contact not found." := by
  have hc : get_phone_core [name] book =
      (match book.find name with
       | some record => .ok (Record.str record)
       | none => .ok "Contact not found.") := rfl
  rw [h] at hc
  refine ⟨hc, ?_⟩
  unfold get_phone
  rw [hc]

/-- Witness for C5 at the empty store and the name `"bob"`. -/
theorem c5_get_phone_missing_w :
    (AddressBook.mk []).find "bob" = none ∧
    get_phone ["bob"] ⟨[]⟩ = "Contact not found." :=
  ⟨rfl, (c5_get_phone_missing "bob" ⟨[]⟩ rfl).2⟩

/-- C9: when name or phone validation fails, the decorated
`add_contact` returns the validation error string and the store exactly
as it was — the record is never inserted because the exception aborts
before `add_record` runs. -/
theorem c9_invalid_add_preserves_store (n p : String) (book : AddressBook)
    (h : (makeName n).isOk = false ∨ (makePhone p).isOk = false) :
    add_contact [n, p] book = ("Invalid input format.", book) := by
  have hcc : add_contact_core [n, p] book =
      (makeName n >>= fun nm =>
       makePhone p >>= fun ph =>
       .ok ("Contact " ++ n ++ " added.", book.add_record ⟨nm, [ph]⟩)) := rfl
  unfold add_contact
  rcases hn : makeName n with e | nm
  · have he := makeName_error hn
    subst he
    rw [hcc, hn]
    rfl
  · rcases hp : makePhone p with e2 | ph
    · have he2 := makePhone_error hp
      subst he2
      rw [hcc, hn, hp]
      rfl
    · exfalso
      rcases h with h1 | h2
      · rw [hn] at h1
        simp [Except.isOk, Except.toBool] at h1
      · rw [hp] at h2
        simp [Except.isOk, Except.toBool] at h2

/-- Witness for C9: a too-short phone leaves the empty store empty. -/
theorem c9_invalid_add_preserves_store_w :
    ((makeName "ann").isOk = false ∨ (makePhone "123").isOk = false) ∧
    add_contact ["ann", "123"] ⟨[]⟩ = ("Invalid input format.", ⟨[]⟩) :=
  ⟨Or.inr (by decide),
   c9_invalid_add_preserves_store "ann" "123" ⟨[]⟩ (Or.inr (by decide))⟩

/-- Ten Arabic-Indic digit characters (U+0660): every character is a
digit for Python's `str.isdigit` yet none is ASCII. -/
def arabTen : String := String.mk (List.replicate 10 (Char.ofNat 0x660))

/-- C2 counterexample: a ten-character string of non-ASCII digits is
accepted by `Phone` construction, so strings containing non-ASCII
characters are not all rejected. -/
theorem c2_nonascii_accepted_cex :
    (makePhone arabTen).isOk = true ∧
    arabTen.data.all (fun c => decide (127 < c.val)) = true := by
  constructor
  · decide
  · decide

/-- C2 (amended): `Phone` construction succeeds exactly when the string
has length 10 and every character is a digit in the sense of Python's
`str.isdigit` — a set larger than the ASCII digits; `"12345"` and
`"12345abcde"` still fail and `"0123456789"` still succeeds. -/
theorem c2_makePhone_spec :
    (∀ s : String, (makePhone s).isOk = true ↔
      (s.length = 10 ∧ s.data.all pyIsDigitChar = true)) ∧
    makePhone "12345" = .error .valueError ∧
    makePhone "12345abcde" = .error .valueError ∧
    (makePhone "0123456789").isOk = true ∧
    (makePhone arabTen).isOk = true := by
  refine ⟨fun s => ?_, rfl, rfl, by decide, by decide⟩
  unfold makePhone
  split
  · rename_i hc
    simp only [Except.isOk, Except.toBool, Bool.false_eq_true, false_iff, not_and]
    intro h10 hall
    simp [pyIsdigitStr, h10, hall] at hc
  · rename_i hc
    simp only [Except.isOk, Except.toBool, true_iff]
    simp only [Bool.or_eq_true, Bool.not_eq_true', decide_eq_true_eq, not_or,
      Bool.not_eq_false] at hc
    obtain ⟨h1, h2⟩ := hc
    simp only [pyIsdigitStr, Bool.and_eq_true, bne_iff_ne] at h1
    exact ⟨by omega, h1.2⟩

/-- Witness for C2's amended specification at `"0123456789"`. -/
theorem c2_makePhone_spec_w :
    (makePhone "0123456789").isOk = true :=
  (c2_makePhone_spec.1 "0123456789").mpr (by decide)

/-- C4: inserting a second record under an existing name overwrites the
first: starting empty the store has one entry holding the second record,
and in general the latest record wins the lookup; the same holds for two
successful `add_contact` calls with the same name. -/
theorem c4_same_name_overwrites (n p1 p2 : String) (r1 r2 : Record)
    (hr : r1.name.value = r2.name.value)
    (hn : (makeName n).isOk = true)
    (hp1 : (makePhone p1).isOk = true) (hp2 : (makePhone p2).isOk = true) :
    (((AddressBook.mk []).add_record r1).add_record r2).records.length = 1 ∧
    (((AddressBook.mk []).add_record r1).add_record r2).find r2.name.value = some r2 ∧
    (∀ book : AddressBook, (book.add_record r2).find r2.name.value = some r2) ∧
    ((add_contact [n, p2] (add_contact [n, p1] ⟨[]⟩).2).2).records.length = 1 ∧
    ((add_contact [n, p2] (add_contact [n, p1] ⟨[]⟩).2).2).find n
      = some ⟨⟨n⟩, [⟨p2⟩]⟩ := by
  refine ⟨?_, ?_, ?_, ?_, ?_⟩
  · simp [AddressBook.add_record, insertKey, hr]
  · simp [AddressBook.add_record, AddressBook.find, insertKey, lookupKey, hr]
  · intro book
    exact lookupKey_insertKey_self book.records r2.name.value r2
  · rw [add_contact_success ⟨[]⟩ hn hp1, add_contact_success _ hn hp2]
    simp [AddressBook.add_record, insertKey]
  · rw [add_contact_success ⟨[]⟩ hn hp1, add_contact_success _ hn hp2]
    simp [AddressBook.add_record, AddressBook.find, insertKey, lookupKey]

/-- Witness for C4: overwriting `"x"` and adding `"ann"` twice. -/
theorem c4_same_name_overwrites_w :
    (((AddressBook.mk []).add_record ⟨⟨"x"⟩, []⟩).add_record
        ⟨⟨"x"⟩, [⟨"1234567890"⟩]⟩).records.length = 1 ∧
    ((add_contact ["ann", "2222222222"]
        (add_contact ["ann", "1111111111"] ⟨[]⟩).2).2).find "ann"
      = some ⟨⟨"ann"⟩, [⟨"2222222222"⟩]⟩ := by
  have h := c4_same_name_overwrites "ann" "1111111111" "2222222222"
    ⟨⟨"x"⟩, []⟩ ⟨⟨"x"⟩, [⟨"1234567890"⟩]⟩ rfl (by decide) (by decide) (by decide)
  exact ⟨h.1, h.2.2.2.2⟩

/-- C6: after a successful `add_contact [n, p]`, looking up `n` returns
a record whose rendered string contains the supplied phone `p`. -/
theorem c6_add_then_find_contains_phone (n p : String) (book : AddressBook)
    (hn : (makeName n).isOk = true) (hp : (makePhone p).isOk = true) :
    (add_contact [n, p] book).1 = "Contact " ++ n ++ " added." ∧
    ∃ r : Record, (add_contact [n, p] book).2.find n = some r ∧
      ∃ l t : String, Record.str r = l ++ p ++ t := by
  rw [add_contact_success book hn hp]
  refine ⟨rfl, ⟨⟨n⟩, [⟨p⟩]⟩, ?_, "Contact name: " ++ n ++ ", phones: ", "", ?_⟩
  · exact lookupKey_insertKey_self book.records n ⟨⟨n⟩, [⟨p⟩]⟩
  · show "Contact name: " ++ n ++ ", phones: " ++ pyJoin "; " [p] =
      "Contact name: " ++ n ++ ", phones: " ++ p ++ ""
    rw [String.append_empty]
    rfl

/-- Witness for C6 at `"ann"` / `"0123456789"` on the empty store. -/
theorem c6_add_then_find_contains_phone_w :
    (add_contact ["ann", "0123456789"] ⟨[]⟩).1 = "Contact " ++ "ann" ++ " added." ∧
    ∃ r : Record, (add_contact ["ann", "0123456789"] ⟨[]⟩).2.find "ann" = some r ∧
      ∃ l t : String, Record.str r = l ++ "0123456789" ++ t :=
  c6_add_then_find_contains_phone "ann" "0123456789" ⟨[]⟩ (by decide) (by decide)

/-- C7 counterexample: the input line `phone` with no name is caught by
the arity check inside `main` itself and prints "Invalid format. Use:
phone [name]", not "Not enough arguments.". -/
theorem c7_phone_no_name_cex :
    processCommand "phone" ⟨[]⟩ = (["Invalid format. Use: phone [name]"], ⟨[]⟩, true) ∧
    "Invalid format. Use: phone [name]" ≠ "Not enough arguments." := by
  exact ⟨rfl, by decide⟩

/-- C7 (amended): in the command loop, the line `phone` with no name
token prints the loop's own message "Invalid format. Use: phone [name]"
(whatever the store holds) — `get_phone` and its decorator never run. -/
theorem c7_phone_no_name_msg (book : AddressBook) :
    processCommand "phone" book = (["Invalid format. Use: phone [name]"], book, true) ∧
    runLoop ["phone"] book = ["Invalid format. Use: phone [name]"] := by
  constructor
  · rfl
  · rfl

/-- C8: deleting an absent name leaves the store untouched; deleting a
present name (in a store with duplicate-free keys, as every Python dict
is) removes exactly that entry and leaves every other lookup unchanged. -/
theorem c8_delete_semantics (book : AddressBook) (name : String) :
    (book.find name = none → book.delete name = book) ∧
    ((book.records.map Prod.fst).Nodup → (book.find name).isSome = true →
      (book.delete name).find name = none ∧
      ∀ k, k ≠ name → (book.delete name).find k = book.find k) := by
  constructor
  · intro h
    unfold AddressBook.delete
    rw [h]
    rfl
  · intro hnd hsome
    unfold AddressBook.delete
    rw [if_pos hsome]
    constructor
    · exact lookupKey_removeKey_self hnd
    · intro k hk
      exact lookupKey_removeKey_ne book.records hk

/-- Witness for C8 on a two-entry store: deleting `"zz"` is a no-op,
deleting `"a"` removes `"a"` and keeps `"b"`. -/
theorem c8_delete_semantics_w :
    AddressBook.delete ⟨[("a", ⟨⟨"a"⟩, []⟩), ("b", ⟨⟨"b"⟩, []⟩)]⟩ "zz"
      = ⟨[("a", ⟨⟨"a"⟩, []⟩), ("b", ⟨⟨"b"⟩, []⟩)]⟩ ∧
    (AddressBook.delete ⟨[("a", ⟨⟨"a"⟩, []⟩), ("b", ⟨⟨"b"⟩, []⟩)]⟩ "a").find "a" = none ∧
    (AddressBook.delete ⟨[("a", ⟨⟨"a"⟩, []⟩), ("b", ⟨⟨"b"⟩, []⟩)]⟩ "a").find "b"
      = (⟨[("a", ⟨⟨"a"⟩, []⟩), ("b", ⟨⟨"b"⟩, []⟩)]⟩ : AddressBook).find "b" := by
  refine ⟨(c8_delete_semantics _ "zz").1 (by decide), ?_, ?_⟩
  · exact ((c8_delete_semantics ⟨[("a", ⟨⟨"a"⟩, []⟩), ("b", ⟨⟨"b"⟩, []⟩)]⟩ "a").2
      (by decide) (by decide)).1
  · exact ((c8_delete_semantics ⟨[("a", ⟨⟨"a"⟩, []⟩), ("b", ⟨⟨"b"⟩, []⟩)]⟩ "a").2
      (by decide) (by decide)).2 "b" (by decide)

/-- C10: a raw name with some non-whitespace character is stored
unchanged — no trimming — so the record is keyed by the untrimmed
string, and when trimming would change the string, lookup under the
trimmed name misses. -/
theorem c10_untrimmed_key (raw : String) (phs : List Phone)
    (h1 : raw.data.any (fun c => !pyIsSpaceChar c) = true)
    (h2 : pyStrip raw ≠ raw) :
    makeName raw = .ok ⟨raw⟩ ∧
    ((AddressBook.mk []).add_record ⟨⟨raw⟩, phs⟩).find raw = some ⟨⟨raw⟩, phs⟩ ∧
    ((AddressBook.mk []).add_record ⟨⟨raw⟩, phs⟩).find (pyStrip raw) = none := by
  have hne : pyStrip raw ≠ "" := by
    intro hh
    have hall := (pyStrip_eq_empty_iff raw).mp hh
    rw [List.all_eq_true] at hall
    rw [List.any_eq_true] at h1
    obtain ⟨c, hc, hcp⟩ := h1
    rw [Bool.not_eq_true'] at hcp
    exact absurd (hall c hc) (by simp [hcp])
  refine ⟨?_, ?_, ?_⟩
  · unfold makeName
    rw [if_neg hne]
  · simp [AddressBook.add_record, AddressBook.find, insertKey, lookupKey]
  · have hx : ¬ (raw = pyStrip raw) := fun hh => h2 hh.symm
    simp [AddressBook.add_record, AddressBook.find, insertKey, lookupKey, hx]

/-- Witness for C10 at the padded name `" Ann "`. -/
theorem c10_untrimmed_key_w :
    makeName " Ann " = .ok ⟨" Ann "⟩ ∧
    ((AddressBook.mk []).add_record ⟨⟨" Ann "⟩, []⟩).find " Ann " = some ⟨⟨" Ann "⟩, []⟩ ∧
    ((AddressBook.mk []).add_record ⟨⟨" Ann "⟩, []⟩).find (pyStrip " Ann ") = none :=
  c10_untrimmed_key " Ann " [] (by decide) (by decide)
